import Mathlib

/-!
Verification of the AwesomeContext retrieval gateway.

The development shallowly embeds the gateway layer of the repository:
the three MCP tool handlers (`handleArchitectConsult`, `handleSkillInjector`,
`handleComplianceVerify` from `src/mcp-server/src/tools/`) and the startup
orchestration script (`src/scripts/cloud-start.sh`).

JavaScript strings are modelled as Lean `String`s, JavaScript numbers that
carry fractional values as `Rat`, and the backend HTTP client as an abstract
`Backend` record of pure functions.  Each handler returns, next to its tool
result, the ordered list of backend-client invocations it performs, so that
properties about which backend operations are (or are not) reached can be
stated directly.
-/

namespace AwesomeContext

/-! ## Rendering helpers: JavaScript number-to-string conversion

`natToChars` embeds the decimal rendering of a nonnegative integer
(template-literal interpolation of an integer-valued JS number).
`ratToFixedChars` embeds ECMAScript `Number.prototype.toFixed(d)`:
round the value at `d` decimal digits, choosing the larger candidate on
ties, and render with exactly `d` digits after the point. -/

def digitChar (d : Nat) : Char := Char.ofNat (48 + d)

def natToCharsAux : Nat → Nat → List Char → List Char
  | 0, _, acc => acc
  | fuel + 1, n, acc =>
    if n = 0 then acc
    else natToCharsAux fuel (n / 10) (digitChar (n % 10) :: acc)

def natToChars (n : Nat) : List Char :=
  if n = 0 then ['0'] else natToCharsAux (n + 1) n []

def natToStr (n : Nat) : String := String.mk (natToChars n)

def padZeros (d : Nat) (cs : List Char) : List Char :=
  List.replicate (d - cs.length) '0' ++ cs

/-- The integer `n` selected by `toFixed(d)` for the value `x`: the integer
closest to `x * 10 ^ d`, the larger one on ties.  For `x = num / den` this
is `⌊(2 * num * 10 ^ d + den) / (2 * den)⌋`, computed with integer floor
division. -/
def toFixedInt (d : Nat) (x : Rat) : Int :=
  (2 * x.num * Int.ofNat (10 ^ d) + (x.den : Int)).fdiv (2 * (x.den : Int))

def ratToFixedChars (d : Nat) (x : Rat) : List Char :=
  let p : Nat := 10 ^ d
  let k : Int := toFixedInt d x
  let a : Nat := k.natAbs
  let sign : List Char := if k < 0 then ['-'] else []
  if d = 0 then sign ++ natToChars a
  else sign ++ natToChars (a / p) ++ '.' :: padZeros d (natToChars (a % p))

def ratToFixedStr (d : Nat) (x : Rat) : String := String.mk (ratToFixedChars d x)

/-- Embeds JavaScript `s.slice(0, n)` on strings. -/
def strSlice (n : Nat) (s : String) : String := String.mk (s.data.take n)

/-- Embeds JavaScript `Array.prototype.join("\n")`. -/
def joinLines : List String → String
  | [] => ""
  | [s] => s
  | s :: t :: rest => s ++ "\n" ++ joinLines (t :: rest)

/-- Embeds JavaScript `a || dflt` on an optional string argument: the
default is taken when the argument is absent or the empty string. -/
def jsOrDefault (o : Option String) (dflt : String) : String :=
  match o with
  | none => dflt
  | some s => if s = "" then dflt else s

/-! ## Occurrence counting

`countOcc n h` counts the positions of `h` at which the pattern `n`
occurs as a contiguous substring. -/

def countOcc (n : List Char) : List Char → Nat
  | [] => if n.isPrefixOf ([] : List Char) then 1 else 0
  | c :: h => (if n.isPrefixOf (c :: h) then 1 else 0) + countOcc n h

def strCount (n h : String) : Nat := countOcc n.data h.data

/-! ## Data model

`src/mcp-server/src/types.ts` is not part of the source snapshot.
Modelled from the spec: the shapes of `MatchedModule`,
`LatentQueryResponse`, `ModuleCatalog` and `LatentQuery` follow §3 of the
design document (scores and times are numeric, `tokens_saved` a
nonnegative integer, optional query fields absent by default). -/

structure MatchedModule where
  module_id : String
  name : String
  module_type : String
  score : Rat
  description : String
  deriving DecidableEq

structure Metrics where
  tokens_saved : Nat
  total_time_ms : Rat
  deriving DecidableEq

structure LatentQueryResponse where
  matched_modules : List MatchedModule
  dense_prompt : String
  metrics : Metrics
  deriving DecidableEq

structure CatalogEntry where
  module_id : String
  name : String
  description : String
  deriving DecidableEq

structure ModuleCatalog where
  modules : List CatalogEntry
  total : Nat
  deriving DecidableEq

structure LatentQuery where
  intent : Option String := none
  skill_id : Option String := none
  code : Option String := none
  tool_name : String
  module_type_filter : Option String := none
  top_k : Option Nat := none
  session_id : Option String := none
  deriving DecidableEq

/-- One invocation of the backend client (`queryLatentBackend` or
`listModules` from `src/mcp-server/src/client.ts`). -/
inductive BackendCall where
  | queryCall : LatentQuery → BackendCall
  | listCall : String → BackendCall
  deriving DecidableEq

/-- The backend client, abstracted as pure functions. -/
structure Backend where
  queryLatentBackend : LatentQuery → LatentQueryResponse
  listModules : String → ModuleCatalog

structure TextContent where
  type : String
  text : String
  deriving DecidableEq

structure ToolResult where
  content : List TextContent
  deriving DecidableEq

/-- The concatenated text of a tool result (each handler returns a single
text item, so this is that item's text). -/
def resultText (r : ToolResult) : String :=
  String.join (r.content.map TextContent.text)

/-- `{ content: [{ type: "text", text }] }`, the result envelope every
handler builds. -/
def mkTextResult (t : String) : ToolResult :=
  { content := [{ type := "text", text := t }] }

/-- The trailing metrics line shared verbatim by all three handlers. -/
def metricsLine (mt : Metrics) : String :=
  "**Tokens saved:** " ++ natToStr mt.tokens_saved ++ " | **Time:** "
    ++ ratToFixedStr 0 mt.total_time_ms ++ "ms"

/-! ## Tool handlers (from `src/mcp-server/src/tools/`) -/

/-- The query built by `handleArchitectConsult`. -/
def architectQuery (intent : String) (session_id : Option String) : LatentQuery :=
  { intent := some intent, session_id := session_id,
    tool_name := "architect_consult", top_k := some 5 }

def architectModuleLine (m : MatchedModule) : String :=
  "  - [" ++ ratToFixedStr 2 m.score ++ "] **" ++ m.name ++ "** (" ++ m.module_type ++ ")"

def architectText (response : LatentQueryResponse) : String :=
  joinLines
    ["## Architecture Guidance", "",
     response.dense_prompt, "",
     "---",
     "**Matched modules:**",
     joinLines (response.matched_modules.map architectModuleLine),
     metricsLine response.metrics]

def handleArchitectConsult (b : Backend) (intent : String) (session_id : Option String) :
    ToolResult × List BackendCall :=
  let q := architectQuery intent session_id
  let response := b.queryLatentBackend q
  ({ content := [{ type := "text", text := architectText response }] },
   [BackendCall.queryCall q])

/-- The query built by `handleComplianceVerify`. -/
def complianceQuery (code : String) (rules_filter session_id : Option String) : LatentQuery :=
  { code := some code, tool_name := "compliance_verify",
    module_type_filter := some (jsOrDefault rules_filter "rule"),
    top_k := some 5, session_id := session_id }

def complianceRuleLine (m : MatchedModule) : String :=
  "  - [" ++ ratToFixedStr 2 m.score ++ "] **" ++ m.name ++ "**: " ++ strSlice 80 m.description

def complianceText (response : LatentQueryResponse) : String :=
  joinLines
    ["## Compliance Check", "",
     response.dense_prompt, "",
     "---",
     "**Rules matched:**",
     joinLines (response.matched_modules.map complianceRuleLine),
     metricsLine response.metrics]

def handleComplianceVerify (b : Backend) (code : String)
    (rules_filter session_id : Option String) :
    ToolResult × List BackendCall :=
  let q := complianceQuery code rules_filter session_id
  let response := b.queryLatentBackend q
  ({ content := [{ type := "text", text := complianceText response }] },
   [BackendCall.queryCall q])

/-- The query built by the non-`"list"` branch of `handleSkillInjector`. -/
def skillInjectorQuery (skill_id : String) (session_id : Option String) : LatentQuery :=
  { skill_id := some skill_id, tool_name := "skill_injector", session_id := session_id }

def skillCatalogLine (m : CatalogEntry) : String :=
  "- **" ++ m.module_id ++ "**: " ++ m.name ++ " — " ++ strSlice 100 m.description

def skillListText (moduleList : ModuleCatalog) : String :=
  joinLines
    (["## Available Skills (" ++ natToStr moduleList.total ++ ")", ""]
      ++ moduleList.modules.map skillCatalogLine
      ++ ["", "Use any module_id above as the skill_id parameter."])

/-- Embeds `response.matched_modules[0]?.name || args.skill_id`: the
JavaScript `||` also falls through on an empty name. -/
def matchedNameOf (response : LatentQueryResponse) (skill_id : String) : String :=
  match response.matched_modules with
  | [] => skill_id
  | m :: _ => if m.name = "" then skill_id else m.name

def skillText (response : LatentQueryResponse) (skill_id : String) : String :=
  joinLines
    ["## Skill: " ++ matchedNameOf response skill_id, "",
     response.dense_prompt, "",
     "---",
     metricsLine response.metrics]

def handleSkillInjector (b : Backend) (skill_id : String) (session_id : Option String) :
    ToolResult × List BackendCall :=
  if skill_id = "list" then
    let moduleList := b.listModules "skill"
    ({ content := [{ type := "text", text := skillListText moduleList }] },
     [BackendCall.listCall "skill"])
  else
    let q := skillInjectorQuery skill_id session_id
    let response := b.queryLatentBackend q
    ({ content := [{ type := "text", text := skillText response skill_id }] },
     [BackendCall.queryCall q])

/-! ## Startup orchestration (from `src/scripts/cloud-start.sh`) -/

inductive Event where
  | startBackend : Nat → Event
  | healthCheck : Nat → Bool → Event
  | exitProcess : Nat → Event
  | startGateway : Nat → String → Event
  deriving DecidableEq

/-- The `for i in $(seq 1 30)` health-polling loop.  Returns the events of
the loop body and whether the script continues past the loop (`true`:
`break` on a healthy response, or loop exhaustion; `false`: `exit 1`). -/
def healthLoop (health : Nat → Bool) : List Nat → List Event × Bool
  | [] => ([], true)
  | i :: rest =>
    if health i then ([Event.healthCheck i true], true)
    else if i = 30 then ([Event.healthCheck i false, Event.exitProcess 1], false)
    else
      let r := healthLoop health rest
      (Event.healthCheck i false :: r.1, r.2)

/-- The whole startup script: capture `PORT` (default 3000) and
`BACKEND_PORT` (default 8420), start the backend on the internal port,
poll its health endpoint, and on success launch the gateway on the
external port with the backend base URL built from the internal port. -/
def cloudStart (health : Nat → Bool) (portEnv backendPortEnv : Option Nat) : List Event :=
  let externalPort := portEnv.getD 3000
  let internalPort := backendPortEnv.getD 8420
  let r := healthLoop health (List.range' 1 30)
  Event.startBackend internalPort ::
    (r.1 ++
      if r.2 then
        [Event.startGateway externalPort ("http://127.0.0.1:" ++ natToStr internalPort)]
      else [])

def isHealthCheckEvent : Event → Bool
  | Event.healthCheck _ _ => true
  | _ => false

def healthCount (t : List Event) : Nat := t.countP isHealthCheckEvent

/-! ## Concrete fixtures used by closed theorems -/

def mod0 : MatchedModule :=
  { module_id := "m0", name := "auth-basics", module_type := "skill", score := mkRat 1 2, description := "basic auth guidance" }

def resp0 : LatentQueryResponse :=
  { matched_modules := [mod0], dense_prompt := "use sessions", metrics := { tokens_saved := 100, total_time_ms := mkRat 5 1 } }

def cat0 : ModuleCatalog :=
  { modules := [{ module_id := "skills/x", name := "x-skill", description := "does x" }], total := 1 }

def backend0 : Backend :=
  { queryLatentBackend := fun _ => resp0, listModules := fun _ => cat0 }

def respEvil : LatentQueryResponse :=
  { matched_modules := [], dense_prompt := "Tokens saved: Time: injected", metrics := { tokens_saved := 1, total_time_ms := mkRat 1 1 } }

def backendEvil : Backend :=
  { queryLatentBackend := fun _ => respEvil, listModules := fun _ => cat0 }

def modNoName : MatchedModule :=
  { module_id := "m1", name := "", module_type := "skill", score := mkRat 1 2, description := "d" }

def respNoName : LatentQueryResponse :=
  { matched_modules := [modNoName], dense_prompt := "p", metrics := { tokens_saved := 0, total_time_ms := mkRat 0 1 } }

def backendNoName : Backend :=
  { queryLatentBackend := fun _ => respNoName, listModules := fun _ => cat0 }

def modSec : MatchedModule :=
  { module_id := "m1", name := "Security Review", module_type := "skill", score := mkRat 93 100, description := "Review code for..." }

def respC7 : LatentQueryResponse :=
  { matched_modules := [modSec], dense_prompt := "Check for injection flaws.", metrics := { tokens_saved := 1200, total_time_ms := mkRat 427 10 } }

def backendC7 : Backend :=
  { queryLatentBackend := fun _ => respC7, listModules := fun _ => cat0 }

/-! ## Character-class predicates and line groupings used by the
occurrence-counting development -/

def digitsList : List Char := ['0', '1', '2', '3', '4', '5', '6', '7', '8', '9']

/-- The backend-controlled text fields of one matched module avoid the
character `c`. -/
def moduleTextFree (c : Char) (m : MatchedModule) : Prop :=
  c ∉ m.name.data ∧ c ∉ m.module_type.data ∧ c ∉ m.description.data

/-- The backend-controlled text fields of a query response avoid `c`. -/
def respTextFree (c : Char) (r : LatentQueryResponse) : Prop :=
  c ∉ r.dense_prompt.data ∧ ∀ m ∈ r.matched_modules, moduleTextFree c m

/-- The backend-controlled text fields of a catalog avoid `c`. -/
def catalogTextFree (c : Char) (cat : ModuleCatalog) : Prop :=
  ∀ e ∈ cat.modules, c ∉ e.module_id.data ∧ c ∉ e.name.data ∧ c ∉ e.description.data

instance (c : Char) (m : MatchedModule) : Decidable (moduleTextFree c m) := by
  unfold moduleTextFree
  infer_instance

instance (c : Char) (r : LatentQueryResponse) : Decidable (respTextFree c r) := by
  unfold respTextFree
  infer_instance

instance (c : Char) (cat : ModuleCatalog) : Decidable (catalogTextFree c cat) := by
  unfold catalogTextFree
  infer_instance

/-- The lines of the architect_consult output before the metrics line. -/
def archLinesInit (response : LatentQueryResponse) : List String :=
  ["## Architecture Guidance", "",
   response.dense_prompt, "",
   "---",
   "**Matched modules:**",
   joinLines (response.matched_modules.map architectModuleLine)]

/-- The lines of the compliance_verify output before the metrics line. -/
def complianceLinesInit (response : LatentQueryResponse) : List String :=
  ["## Compliance Check", "",
   response.dense_prompt, "",
   "---",
   "**Rules matched:**",
   joinLines (response.matched_modules.map complianceRuleLine)]

/-- The lines of the skill_injector output (non-`"list"` branch) before
the metrics line. -/
def skillLinesInit (response : LatentQueryResponse) (skill_id : String) : List String :=
  ["## Skill: " ++ matchedNameOf response skill_id, "",
   response.dense_prompt, "",
   "---"]

/-! ## Basic string lemmas -/

@[simp]
theorem data_append (s t : String) : (s ++ t).data = s.data ++ t.data := rfl

@[simp]
theorem data_mk (l : List Char) : (String.mk l).data = l := rfl

@[simp]
theorem data_empty : ("" : String).data = [] := rfl

theorem not_mem_append2 {c : Char} {a b : List Char} (ha : c ∉ a) (hb : c ∉ b) :
    c ∉ a ++ b :=
  fun h => (List.mem_append.mp h).elim ha hb

/-! ## Digit lemmas: rendered numbers avoid the letter `T` -/

theorem digitChar_mem (d : Nat) (hd : d < 10) : digitChar d ∈ digitsList := by
  interval_cases d <;> decide

theorem natToCharsAux_digits :
    ∀ (fuel n : Nat) (acc : List Char), (∀ c ∈ acc, c ∈ digitsList) →
      ∀ c ∈ natToCharsAux fuel n acc, c ∈ digitsList := by
  intro fuel
  induction fuel with
  | zero =>
    intro n acc hacc c hc
    simp only [natToCharsAux] at hc
    exact hacc c hc
  | succ f ih =>
    intro n acc hacc c hc
    by_cases hn : n = 0
    · simp only [natToCharsAux, if_pos hn] at hc
      exact hacc c hc
    · simp only [natToCharsAux, if_neg hn] at hc
      refine ih (n / 10) _ ?_ c hc
      intro x hx
      rcases List.mem_cons.mp hx with h | h
      · subst h
        exact digitChar_mem _ (Nat.mod_lt _ (by norm_num))
      · exact hacc x h

theorem natToChars_digits (n : Nat) : ∀ c ∈ natToChars n, c ∈ digitsList := by
  intro c hc
  by_cases hn : n = 0
  · simp only [natToChars, if_pos hn, List.mem_singleton] at hc
    subst hc
    decide
  · simp only [natToChars, if_neg hn] at hc
    exact natToCharsAux_digits (n + 1) n [] (by simp) c hc

theorem no_T_natToChars (n : Nat) : 'T' ∉ natToChars n := by
  intro h
  have := natToChars_digits n 'T' h
  simp [digitsList] at this

theorem padZeros_digits (d : Nat) (cs : List Char) (h : ∀ c ∈ cs, c ∈ digitsList) :
    ∀ c ∈ padZeros d cs, c ∈ digitsList := by
  intro c hc
  rcases List.mem_append.mp hc with h' | h'
  · rw [List.eq_of_mem_replicate h']
    decide
  · exact h c h'

theorem ratToFixedChars_mem (d : Nat) (x : Rat) :
    ∀ c ∈ ratToFixedChars d x, c ∈ '.' :: '-' :: digitsList := by
  intro c hc
  simp only [ratToFixedChars] at hc
  split_ifs at hc
  · rcases List.mem_append.mp hc with h' | h'
    · rw [List.mem_singleton.mp h']; decide
    · exact List.mem_cons_of_mem _ (List.mem_cons_of_mem _ (natToChars_digits _ c h'))
  · rcases List.mem_append.mp hc with h' | h'
    · simp at h'
    · exact List.mem_cons_of_mem _ (List.mem_cons_of_mem _ (natToChars_digits _ c h'))
  · rcases List.mem_append.mp hc with h' | h'
    · rcases List.mem_append.mp h' with h2 | h2
      · rw [List.mem_singleton.mp h2]; decide
      · exact List.mem_cons_of_mem _ (List.mem_cons_of_mem _ (natToChars_digits _ c h2))
    · rcases List.mem_cons.mp h' with h2 | h2
      · rw [h2]; decide
      · exact List.mem_cons_of_mem _
          (List.mem_cons_of_mem _ (padZeros_digits _ _ (natToChars_digits _) c h2))
  · rcases List.mem_append.mp hc with h' | h'
    · rcases List.mem_append.mp h' with h2 | h2
      · simp at h2
      · exact List.mem_cons_of_mem _ (List.mem_cons_of_mem _ (natToChars_digits _ c h2))
    · rcases List.mem_cons.mp h' with h2 | h2
      · rw [h2]; decide
      · exact List.mem_cons_of_mem _
          (List.mem_cons_of_mem _ (padZeros_digits _ _ (natToChars_digits _) c h2))

theorem no_T_ratToFixedChars (d : Nat) (x : Rat) : 'T' ∉ ratToFixedChars d x := by
  intro h
  have := ratToFixedChars_mem d x 'T' h
  simp [digitsList] at this

/-! ## Occurrence-count lemmas -/

theorem countOcc_cons_skip (c : Char) (n : List Char) (x : Char) (h : List Char)
    (hx : x ≠ c) : countOcc (c :: n) (x :: h) = countOcc (c :: n) h := by
  have hbeq : (c == x) = false := beq_eq_false_iff_ne.2 (Ne.symm hx)
  simp [countOcc, List.isPrefixOf, hbeq]

theorem countOcc_skipAll (c : Char) (n a b : List Char) (ha : c ∉ a) :
    countOcc (c :: n) (a ++ b) = countOcc (c :: n) b := by
  induction a with
  | nil => rfl
  | cons x t ih =>
    have hx : x ≠ c := fun h => ha (h ▸ List.mem_cons_self x t)
    have ht : c ∉ t := fun h => ha (List.mem_cons_of_mem _ h)
    rw [List.cons_append, countOcc_cons_skip c n x (t ++ b) hx, ih ht]

theorem countOcc_zero (c : Char) (n h : List Char) (hh : c ∉ h) :
    countOcc (c :: n) h = 0 := by
  have hs := countOcc_skipAll c n h [] hh
  rw [List.append_nil] at hs
  rw [hs]
  simp [countOcc, List.isPrefixOf]

theorem metricsLine_data (mt : Metrics) : (metricsLine mt).data
    = ['*', '*', 'T', 'o', 'k', 'e', 'n', 's', ' ', 's', 'a', 'v', 'e', 'd', ':', '*', '*', ' ']
      ++ (natToChars mt.tokens_saved
        ++ ([' ', '|', ' ', '*', '*', 'T', 'i', 'm', 'e', ':', '*', '*', ' ']
          ++ (ratToFixedChars 0 mt.total_time_ms ++ ['m', 's']))) := by
  simp [metricsLine, natToStr, ratToFixedStr, List.append_assoc]

/-- The metrics line contains the substring `Tokens saved:` exactly once. -/
theorem countOcc_tok_metrics (mt : Metrics) :
    countOcc "Tokens saved:".data (metricsLine mt).data = 1 := by
  have ht := no_T_natToChars mt.tokens_saved
  have hm := no_T_ratToFixedChars 0 mt.total_time_ms
  rw [metricsLine_data,
    show "Tokens saved:".data
      = 'T' :: ['o', 'k', 'e', 'n', 's', ' ', 's', 'a', 'v', 'e', 'd', ':'] from rfl]
  simp +decide [countOcc, List.cons_append, List.nil_append,
    countOcc_skipAll 'T' _ (natToChars mt.tokens_saved) _ ht,
    countOcc_skipAll 'T' _ (ratToFixedChars 0 mt.total_time_ms) _ hm]

/-- The metrics line contains the substring `Time:` exactly once. -/
theorem countOcc_time_metrics (mt : Metrics) :
    countOcc "Time:".data (metricsLine mt).data = 1 := by
  have ht := no_T_natToChars mt.tokens_saved
  have hm := no_T_ratToFixedChars 0 mt.total_time_ms
  rw [metricsLine_data,
    show "Time:".data = 'T' :: ['i', 'm', 'e', ':'] from rfl]
  simp +decide [countOcc, List.cons_append, List.nil_append,
    countOcc_skipAll 'T' _ (natToChars mt.tokens_saved) _ ht,
    countOcc_skipAll 'T' _ (ratToFixedChars 0 mt.total_time_ms) _ hm]

/-! ## Joined-line lemmas -/

theorem mem_joinLines_data (c : Char) :
    ∀ ls : List String, c ∈ (joinLines ls).data → c = '\n' ∨ ∃ s ∈ ls, c ∈ s.data := by
  intro ls
  induction ls with
  | nil =>
    intro h
    simp [joinLines] at h
  | cons s rest ih =>
    cases rest with
    | nil =>
      intro h
      simp only [joinLines] at h
      exact Or.inr ⟨s, by simp, h⟩
    | cons t r =>
      intro h
      rw [show joinLines (s :: t :: r) = s ++ "\n" ++ joinLines (t :: r) from rfl] at h
      simp only [data_append] at h
      rcases List.mem_append.mp h with h' | h'
      · rcases List.mem_append.mp h' with h2 | h2
        · exact Or.inr ⟨s, by simp, h2⟩
        · left
          simpa using h2
      · rcases ih h' with h2 | ⟨u, hu, hcu⟩
        · exact Or.inl h2
        · exact Or.inr ⟨u, by simp [hu], hcu⟩

theorem no_T_joinLines (c : Char) (hc : c ≠ '\n') (ls : List String)
    (h : ∀ s ∈ ls, c ∉ s.data) : c ∉ (joinLines ls).data := by
  intro hm
  rcases mem_joinLines_data c ls hm with h' | ⟨s, hs, hcs⟩
  · exact hc h'
  · exact h s hs hcs

/-- Counting occurrences of a pattern starting with `c` in a joined text
whose initial lines avoid `c` reduces to counting in the last line. -/
theorem countOcc_joinLines_concat (c : Char) (n : List Char) (hc : c ≠ '\n')
    (ls : List String) (last : String) (hls : ∀ s ∈ ls, c ∉ s.data) :
    countOcc (c :: n) (joinLines (ls ++ [last])).data = countOcc (c :: n) last.data := by
  induction ls with
  | nil => simp [joinLines]
  | cons s rest ih =>
    have hs : c ∉ s.data := hls s (List.mem_cons_self _ _)
    have hrest : ∀ x ∈ rest, c ∉ x.data := fun x hx => hls x (List.mem_cons_of_mem _ hx)
    obtain ⟨t, r, htr⟩ : ∃ t r, rest ++ [last] = t :: r := by
      cases hrl : rest ++ [last] with
      | nil => simp at hrl
      | cons t r => exact ⟨t, r, rfl⟩
    rw [List.cons_append, htr,
      show joinLines (s :: t :: r) = s ++ "\n" ++ joinLines (t :: r) from rfl, ← htr]
    simp only [data_append]
    rw [List.append_assoc, countOcc_skipAll c n s.data _ hs,
      show ("\n" : String).data ++ (joinLines (rest ++ [last])).data
        = '\n' :: (joinLines (rest ++ [last])).data from rfl,
      countOcc_cons_skip c n '\n' _ (Ne.symm hc)]
    exact ih hrest

/-! ## Per-line `T`-freeness lemmas -/

theorem no_T_strSlice (k : Nat) (s : String) (h : 'T' ∉ s.data) :
    'T' ∉ (strSlice k s).data :=
  fun hm => h (List.take_subset _ _ hm)

theorem no_T_archLine (m : MatchedModule) (h : moduleTextFree 'T' m) :
    'T' ∉ (architectModuleLine m).data := by
  obtain ⟨h1, h2, _⟩ := h
  show 'T' ∉ _
  simp only [architectModuleLine, data_append, ratToFixedStr, data_mk]
  exact not_mem_append2 (not_mem_append2 (not_mem_append2 (not_mem_append2
    (not_mem_append2 (not_mem_append2 (by decide) (no_T_ratToFixedChars 2 m.score))
      (by decide)) h1) (by decide)) h2) (by decide)

theorem no_T_complianceLine (m : MatchedModule) (h : moduleTextFree 'T' m) :
    'T' ∉ (complianceRuleLine m).data := by
  obtain ⟨h1, _, h3⟩ := h
  show 'T' ∉ _
  simp only [complianceRuleLine, data_append, ratToFixedStr, data_mk]
  exact not_mem_append2 (not_mem_append2 (not_mem_append2 (not_mem_append2
    (not_mem_append2 (by decide) (no_T_ratToFixedChars 2 m.score)) (by decide)) h1)
      (by decide)) (no_T_strSlice 80 m.description h3)

theorem no_T_skillCatalogLine (e : CatalogEntry)
    (h1 : 'T' ∉ e.module_id.data) (h2 : 'T' ∉ e.name.data) (h3 : 'T' ∉ e.description.data) :
    'T' ∉ (skillCatalogLine e).data := by
  show 'T' ∉ _
  simp only [skillCatalogLine, data_append, data_mk]
  exact not_mem_append2 (not_mem_append2 (not_mem_append2 (not_mem_append2
    (not_mem_append2 (by decide) h1) (by decide)) h2) (by decide))
      (no_T_strSlice 100 e.description h3)

theorem no_T_matchedName (resp : LatentQueryResponse) (s : String)
    (hT : respTextFree 'T' resp) (hs : 'T' ∉ s.data) :
    'T' ∉ (matchedNameOf resp s).data := by
  unfold matchedNameOf
  cases hmm : resp.matched_modules with
  | nil => exact hs
  | cons m l =>
    by_cases hname : m.name = ""
    · simp only [hname, if_pos rfl]
      exact hs
    · simp only [if_neg hname]
      exact (hT.2 m (by rw [hmm]; exact List.mem_cons_self _ _)).1

/-! ## `T`-freeness of the pre-metrics lines of each tool output -/

theorem no_T_archInit (resp : LatentQueryResponse) (hT : respTextFree 'T' resp) :
    ∀ s ∈ archLinesInit resp, 'T' ∉ s.data := by
  intro s hs
  simp only [archLinesInit, List.mem_cons, List.not_mem_nil, or_false] at hs
  rcases hs with rfl | rfl | rfl | rfl | rfl | rfl | rfl
  · decide
  · decide
  · exact hT.1
  · decide
  · decide
  · decide
  · refine no_T_joinLines 'T' (by decide) _ ?_
    intro x hx
    obtain ⟨m, hm, rfl⟩ := List.mem_map.mp hx
    exact no_T_archLine m (hT.2 m hm)

theorem no_T_complianceInit (resp : LatentQueryResponse) (hT : respTextFree 'T' resp) :
    ∀ s ∈ complianceLinesInit resp, 'T' ∉ s.data := by
  intro s hs
  simp only [complianceLinesInit, List.mem_cons, List.not_mem_nil, or_false] at hs
  rcases hs with rfl | rfl | rfl | rfl | rfl | rfl | rfl
  · decide
  · decide
  · exact hT.1
  · decide
  · decide
  · decide
  · refine no_T_joinLines 'T' (by decide) _ ?_
    intro x hx
    obtain ⟨m, hm, rfl⟩ := List.mem_map.mp hx
    exact no_T_complianceLine m (hT.2 m hm)

theorem no_T_skillInit (resp : LatentQueryResponse) (skill_id : String)
    (hT : respTextFree 'T' resp) (hsk : 'T' ∉ skill_id.data) :
    ∀ s ∈ skillLinesInit resp skill_id, 'T' ∉ s.data := by
  intro s hs
  simp only [skillLinesInit, List.mem_cons, List.not_mem_nil, or_false] at hs
  rcases hs with rfl | rfl | rfl | rfl | rfl
  · simp only [data_append]
    exact not_mem_append2 (by decide) (no_T_matchedName resp skill_id hT hsk)
  · decide
  · exact hT.1
  · decide
  · decide

/-! ## Per-tool occurrence counts -/

theorem archText_concat (resp : LatentQueryResponse) :
    architectText resp = joinLines (archLinesInit resp ++ [metricsLine resp.metrics]) := rfl

theorem complianceText_concat (resp : LatentQueryResponse) :
    complianceText resp
      = joinLines (complianceLinesInit resp ++ [metricsLine resp.metrics]) := rfl

theorem skillText_concat (resp : LatentQueryResponse) (skill_id : String) :
    skillText resp skill_id
      = joinLines (skillLinesInit resp skill_id ++ [metricsLine resp.metrics]) := rfl

theorem arch_tok_count (resp : LatentQueryResponse) (hT : respTextFree 'T' resp) :
    countOcc "Tokens saved:".data (architectText resp).data = 1 := by
  rw [archText_concat,
    show "Tokens saved:".data
      = 'T' :: ['o', 'k', 'e', 'n', 's', ' ', 's', 'a', 'v', 'e', 'd', ':'] from rfl,
    countOcc_joinLines_concat 'T' _ (by decide) _ _ (no_T_archInit resp hT)]
  exact countOcc_tok_metrics resp.metrics

theorem arch_time_count (resp : LatentQueryResponse) (hT : respTextFree 'T' resp) :
    countOcc "Time:".data (architectText resp).data = 1 := by
  rw [archText_concat,
    show "Time:".data = 'T' :: ['i', 'm', 'e', ':'] from rfl,
    countOcc_joinLines_concat 'T' _ (by decide) _ _ (no_T_archInit resp hT)]
  exact countOcc_time_metrics resp.metrics

theorem compliance_tok_count (resp : LatentQueryResponse) (hT : respTextFree 'T' resp) :
    countOcc "Tokens saved:".data (complianceText resp).data = 1 := by
  rw [complianceText_concat,
    show "Tokens saved:".data
      = 'T' :: ['o', 'k', 'e', 'n', 's', ' ', 's', 'a', 'v', 'e', 'd', ':'] from rfl,
    countOcc_joinLines_concat 'T' _ (by decide) _ _ (no_T_complianceInit resp hT)]
  exact countOcc_tok_metrics resp.metrics

theorem compliance_time_count (resp : LatentQueryResponse) (hT : respTextFree 'T' resp) :
    countOcc "Time:".data (complianceText resp).data = 1 := by
  rw [complianceText_concat,
    show "Time:".data = 'T' :: ['i', 'm', 'e', ':'] from rfl,
    countOcc_joinLines_concat 'T' _ (by decide) _ _ (no_T_complianceInit resp hT)]
  exact countOcc_time_metrics resp.metrics

theorem skill_tok_count (resp : LatentQueryResponse) (skill_id : String)
    (hT : respTextFree 'T' resp) (hsk : 'T' ∉ skill_id.data) :
    countOcc "Tokens saved:".data (skillText resp skill_id).data = 1 := by
  rw [skillText_concat,
    show "Tokens saved:".data
      = 'T' :: ['o', 'k', 'e', 'n', 's', ' ', 's', 'a', 'v', 'e', 'd', ':'] from rfl,
    countOcc_joinLines_concat 'T' _ (by decide) _ _ (no_T_skillInit resp skill_id hT hsk)]
  exact countOcc_tok_metrics resp.metrics

theorem skill_time_count (resp : LatentQueryResponse) (skill_id : String)
    (hT : respTextFree 'T' resp) (hsk : 'T' ∉ skill_id.data) :
    countOcc "Time:".data (skillText resp skill_id).data = 1 := by
  rw [skillText_concat,
    show "Time:".data = 'T' :: ['i', 'm', 'e', ':'] from rfl,
    countOcc_joinLines_concat 'T' _ (by decide) _ _ (no_T_skillInit resp skill_id hT hsk)]
  exact countOcc_time_metrics resp.metrics

theorem no_T_skillListText (cat : ModuleCatalog) (hCat : catalogTextFree 'T' cat) :
    'T' ∉ (skillListText cat).data := by
  refine no_T_joinLines 'T' (by decide) _ ?_
  intro s hs
  rcases List.mem_append.mp hs with h' | h'
  · rcases List.mem_append.mp h' with h2 | h2
    · rcases List.mem_cons.mp h2 with rfl | h3
      · simp only [data_append]
        exact not_mem_append2 (not_mem_append2 (by decide)
          (by simp only [natToStr, data_mk]; exact no_T_natToChars cat.total)) (by decide)
      · rcases List.mem_singleton.mp h3 with rfl
        decide
    · obtain ⟨e, he, rfl⟩ := List.mem_map.mp h2
      obtain ⟨he1, he2, he3⟩ := hCat e he
      exact no_T_skillCatalogLine e he1 he2 he3
  · rcases List.mem_cons.mp h' with rfl | h2
    · decide
    · rcases List.mem_singleton.mp h2 with rfl
      decide

/-! ## Claim C1: empty-input validation -/

/-- C1 counterexample: calling `architect_consult` with an empty `intent`
and `compliance_verify` with an empty `code` does invoke the backend query
function — each handler performs exactly one outbound query call, so the
claimed `InvalidArgument` rejection with zero backend invocations is false. -/
theorem c1_empty_input_reaches_backend :
    (handleArchitectConsult backend0 "" none).2.length = 1
      ∧ (handleComplianceVerify backend0 "" none none).2.length = 1 := by
  exact ⟨rfl, rfl⟩

/-- C1 amended: the handlers perform no empty-input validation.  A call of
`architect_consult` with empty `intent`, or of `compliance_verify` with
empty `code`, is not rejected: it performs exactly one backend query call,
forwarding the empty string in the query. -/
theorem c1_no_empty_validation (b : Backend) (sid rf : Option String) :
    (handleArchitectConsult b "" sid).2 = [BackendCall.queryCall (architectQuery "" sid)]
      ∧ (handleComplianceVerify b "" rf sid).2
          = [BackendCall.queryCall (complianceQuery "" rf sid)] := by
  exact ⟨rfl, rfl⟩

/-! ## Claim C2: `skill_injector("list")` bypasses the query path -/

/-- C2: `skill_injector("list")` performs exactly the catalog-listing call
with module-type filter `"skill"`, and never a backend query call. -/
theorem c2_skill_list_only_catalog (b : Backend) (sid : Option String) :
    (handleSkillInjector b "list" sid).2 = [BackendCall.listCall "skill"]
      ∧ ∀ q : LatentQuery, BackendCall.queryCall q ∉ (handleSkillInjector b "list" sid).2 := by
  constructor
  · rfl
  · intro q h
    simp [handleSkillInjector] at h

/-! ## Claim C5: the metrics substrings appear exactly once -/

/-- C5 counterexample: the claim fails as stated.  `skill_injector("list")`
is a valid input whose output contains neither `Tokens saved:` nor `Time:`,
and a backend response whose `dense_prompt` itself contains the literals
makes `architect_consult` render `Tokens saved:` twice. -/
theorem c5_not_always_once :
    strCount "Tokens saved:" (resultText (handleSkillInjector backend0 "list" none).1) = 0
      ∧ strCount "Time:" (resultText (handleSkillInjector backend0 "list" none).1) = 0
      ∧ strCount "Tokens saved:"
          (resultText (handleArchitectConsult backendEvil "plan" none).1) = 2 := by
  refine ⟨?_, ?_, ?_⟩ <;> · set_option maxRecDepth 100000 in decide

/-- C5 amended: for every backend whose text fields (dense prompt, module
names, module types, descriptions, catalog fields) do not contain the
character `T`, and every input with a `T`-free `skill_id` different from
`"list"`, the outputs of `architect_consult`, `compliance_verify` and
`skill_injector` contain the literals `Tokens saved:` and `Time:` exactly
once each; the `skill_injector("list")` catalog output contains neither. -/
theorem c5_metrics_once (b : Backend) (intent code skill_id : String)
    (rf sid : Option String)
    (hA : respTextFree 'T' (b.queryLatentBackend (architectQuery intent sid)))
    (hC : respTextFree 'T' (b.queryLatentBackend (complianceQuery code rf sid)))
    (hS : respTextFree 'T' (b.queryLatentBackend (skillInjectorQuery skill_id sid)))
    (hsk : skill_id ≠ "list") (hskT : 'T' ∉ skill_id.data)
    (hCat : catalogTextFree 'T' (b.listModules "skill")) :
    strCount "Tokens saved:" (resultText (handleArchitectConsult b intent sid).1) = 1
      ∧ strCount "Time:" (resultText (handleArchitectConsult b intent sid).1) = 1
      ∧ strCount "Tokens saved:" (resultText (handleComplianceVerify b code rf sid).1) = 1
      ∧ strCount "Time:" (resultText (handleComplianceVerify b code rf sid).1) = 1
      ∧ strCount "Tokens saved:" (resultText (handleSkillInjector b skill_id sid).1) = 1
      ∧ strCount "Time:" (resultText (handleSkillInjector b skill_id sid).1) = 1
      ∧ strCount "Tokens saved:" (resultText (handleSkillInjector b "list" sid).1) = 0
      ∧ strCount "Time:" (resultText (handleSkillInjector b "list" sid).1) = 0 := by
  have hres : (handleSkillInjector b skill_id sid).1
      = mkTextResult (skillText (b.queryLatentBackend (skillInjectorQuery skill_id sid))
          skill_id) := by
    simp [handleSkillInjector, hsk, mkTextResult]
  have hres0 : (handleSkillInjector b "list" sid).1
      = mkTextResult (skillListText (b.listModules "skill")) := by
    simp [handleSkillInjector, mkTextResult]
  refine ⟨?_, ?_, ?_, ?_, ?_, ?_, ?_, ?_⟩
  · exact arch_tok_count _ hA
  · exact arch_time_count _ hA
  · exact compliance_tok_count _ hC
  · exact compliance_time_count _ hC
  · rw [hres]
    exact skill_tok_count _ skill_id hS hskT
  · rw [hres]
    exact skill_time_count _ skill_id hS hskT
  · rw [hres0]
    show countOcc "Tokens saved:".data (skillListText (b.listModules "skill")).data = 0
    rw [show "Tokens saved:".data
      = 'T' :: ['o', 'k', 'e', 'n', 's', ' ', 's', 'a', 'v', 'e', 'd', ':'] from rfl]
    exact countOcc_zero 'T' _ _ (no_T_skillListText _ hCat)
  · rw [hres0]
    show countOcc "Time:".data (skillListText (b.listModules "skill")).data = 0
    rw [show "Time:".data = 'T' :: ['i', 'm', 'e', ':'] from rfl]
    exact countOcc_zero 'T' _ _ (no_T_skillListText _ hCat)

/-- C5 witness. -/
theorem c5_metrics_once_witness :
    (respTextFree 'T' resp0 ∧ catalogTextFree 'T' cat0 ∧ "skills/x" ≠ "list"
        ∧ 'T' ∉ "skills/x".data)
      ∧ (strCount "Tokens saved:"
            (resultText (handleArchitectConsult backend0 "plan auth" none).1) = 1
          ∧ strCount "Time:"
              (resultText (handleArchitectConsult backend0 "plan auth" none).1) = 1
          ∧ strCount "Tokens saved:"
              (resultText (handleComplianceVerify backend0 "x = 1" none none).1) = 1
          ∧ strCount "Time:"
              (resultText (handleComplianceVerify backend0 "x = 1" none none).1) = 1
          ∧ strCount "Tokens saved:"
              (resultText (handleSkillInjector backend0 "skills/x" none).1) = 1
          ∧ strCount "Time:"
              (resultText (handleSkillInjector backend0 "skills/x" none).1) = 1
          ∧ strCount "Tokens saved:"
              (resultText (handleSkillInjector backend0 "list" none).1) = 0
          ∧ strCount "Time:"
              (resultText (handleSkillInjector backend0 "list" none).1) = 0) :=
  ⟨⟨by decide, by decide, by decide, by decide⟩,
   c5_metrics_once backend0 "plan auth" "x = 1" "skills/x" none none
     (by decide) (by decide) (by decide) (by decide) (by decide) (by decide)⟩

/-! ## Claim C6: fields of the skill-injector query -/

/-- C6 counterexample: the query sent by `skill_injector` for a
non-`"list"` skill id does not set `module_type_filter` at all — it is
absent, not the skill namespace, so the claim as stated is false. -/
theorem c6_filter_absent :
    (skillInjectorQuery "skills/x" none).module_type_filter = none
      ∧ (skillInjectorQuery "skills/x" none).module_type_filter ≠ some "skill"
      ∧ (handleSkillInjector backend0 "skills/x" none).2
          = [BackendCall.queryCall (skillInjectorQuery "skills/x" none)] := by
  exact ⟨rfl, by decide, rfl⟩

/-- C6 amended: for every `skill_id` different from `"list"`, the
`LatentQuery` sent to the backend populates exactly `skill_id`,
`tool_name = "skill_injector"` and `session_id`; `module_type_filter`,
`intent`, `code` and `top_k` are all absent (the restriction to the skill
namespace is implicit in the tool name, not an explicit filter field). -/
theorem c6_query_fields (b : Backend) (s : String) (sid : Option String) (hs : s ≠ "list") :
    (handleSkillInjector b s sid).2
      = [BackendCall.queryCall
          { intent := none, skill_id := some s, code := none,
            tool_name := "skill_injector", module_type_filter := none,
            top_k := none, session_id := sid }] := by
  simp [handleSkillInjector, hs, skillInjectorQuery]

/-- C6 witness. -/
theorem c6_query_fields_witness :
    ("skills/sec" ≠ "list")
      ∧ (handleSkillInjector backend0 "skills/sec" none).2
          = [BackendCall.queryCall
              { intent := none, skill_id := some "skills/sec", code := none,
                tool_name := "skill_injector", module_type_filter := none,
                top_k := none, session_id := none }] :=
  ⟨by decide, c6_query_fields backend0 "skills/sec" none (by decide)⟩

/-! ## Claim C9: the skill heading and its fallback -/

/-- C9 counterexample: with a backend response whose first matched module
has the empty string as name, the heading falls back to the requested
`skill_id` even though `matched_modules` is not empty — so the fallback
does not happen exactly when `matched_modules` is empty. -/
theorem c9_fallback_on_empty_name :
    respNoName.matched_modules ≠ []
      ∧ matchedNameOf respNoName "sec" = "sec"
      ∧ skillText respNoName "sec"
          = "## Skill: sec\n\np\n\n---\n**Tokens saved:** 0 | **Time:** 0ms" := by
  refine ⟨by decide, rfl, ?_⟩
  decide

/-- C9 amended: for every `skill_id` different from `"list"`, the rendered
heading `## Skill: ...` uses the name of the first matched module of the
backend response, and falls back to the requested `skill_id` exactly when
`matched_modules` is empty or the first module's name is the empty string
(the JavaScript `||` treats an empty name as absent). -/
theorem c9_heading_fallback (b : Backend) (s : String) (sid : Option String) (hs : s ≠ "list") :
    (handleSkillInjector b s sid).1
        = mkTextResult (skillText (b.queryLatentBackend (skillInjectorQuery s sid)) s)
      ∧ (∀ resp : LatentQueryResponse, resp.matched_modules = [] → matchedNameOf resp s = s)
      ∧ (∀ (resp : LatentQueryResponse) (m : MatchedModule) (l : List MatchedModule),
          resp.matched_modules = m :: l → m.name = "" → matchedNameOf resp s = s)
      ∧ (∀ (resp : LatentQueryResponse) (m : MatchedModule) (l : List MatchedModule),
          resp.matched_modules = m :: l → m.name ≠ "" → matchedNameOf resp s = m.name) := by
  refine ⟨by simp [handleSkillInjector, hs, mkTextResult], ?_, ?_, ?_⟩
  · intro resp h
    simp [matchedNameOf, h]
  · intro resp m l h hm
    simp [matchedNameOf, h, hm]
  · intro resp m l h hm
    simp [matchedNameOf, h, hm]

/-- C9 witness. -/
theorem c9_heading_fallback_witness :
    ("skills/sec" ≠ "list")
      ∧ (handleSkillInjector backend0 "skills/sec" none).1
          = mkTextResult (skillText (backend0.queryLatentBackend
              (skillInjectorQuery "skills/sec" none)) "skills/sec")
      ∧ matchedNameOf resp0 "skills/sec" = "auth-basics" :=
  ⟨by decide,
   (c9_heading_fallback backend0 "skills/sec" none (by decide)).1,
   (c9_heading_fallback backend0 "skills/sec" none (by decide)).2.2.2
     resp0 mod0 [] rfl (by decide)⟩

/-! ## Claim C8: exact description truncation -/

/-- C8: `compliance_verify` renders exactly the first 80 characters of each
matched-module description and the skill listing exactly the first 100
characters of each catalog description; the truncated text is an initial
segment of the description with nothing appended (no ellipsis). -/
theorem c8_truncation_exact (m : MatchedModule) (e : CatalogEntry) :
    complianceRuleLine m
        = "  - [" ++ ratToFixedStr 2 m.score ++ "] **" ++ m.name ++ "**: "
            ++ strSlice 80 m.description
      ∧ (strSlice 80 m.description).data.length ≤ 80
      ∧ (strSlice 80 m.description).data ++ m.description.data.drop 80 = m.description.data
      ∧ skillCatalogLine e
        = "- **" ++ e.module_id ++ "**: " ++ e.name ++ " — " ++ strSlice 100 e.description
      ∧ (strSlice 100 e.description).data.length ≤ 100
      ∧ (strSlice 100 e.description).data ++ e.description.data.drop 100 = e.description.data := by
  refine ⟨rfl, ?_, ?_, rfl, ?_, ?_⟩
  · simp [strSlice, List.length_take]
  · simp [strSlice, List.take_append_drop]
  · simp [strSlice, List.length_take]
  · simp [strSlice, List.take_append_drop]

/-! ## Startup orchestration lemmas -/

theorem healthLoop_events_shape (health : Nat → Bool) :
    ∀ l, ∀ e ∈ (healthLoop health l).1,
      (∃ i b, e = Event.healthCheck i b) ∨ e = Event.exitProcess 1 := by
  intro l
  induction l with
  | nil => intro e he; simp [healthLoop] at he
  | cons i rest ih =>
    intro e he
    by_cases h1 : health i
    · simp [healthLoop, h1] at he
      exact Or.inl ⟨i, true, he⟩
    · by_cases h2 : i = 30
      · subst h2
        simp [healthLoop, h1] at he
        rcases he with he | he
        · exact Or.inl ⟨30, false, he⟩
        · exact Or.inr he
      · simp [healthLoop, h1, h2] at he
        rcases he with he | he
        · exact Or.inl ⟨i, false, he⟩
        · exact ih e he

theorem healthLoop_success_split (health : Nat → Bool) :
    ∀ l, 30 ∈ l → (healthLoop health l).2 = true →
      ∃ pre i, (healthLoop health l).1 = pre ++ [Event.healthCheck i true] := by
  intro l
  induction l with
  | nil => intro h30; simp at h30
  | cons i rest ih =>
    intro h30 hok
    by_cases h1 : health i
    · exact ⟨[], i, by simp [healthLoop, h1]⟩
    · by_cases h2 : i = 30
      · subst h2
        simp [healthLoop, h1] at hok
      · have h30' : 30 ∈ rest := by
          rcases List.mem_cons.mp h30 with h | h
          · exact absurd h.symm h2
          · exact h
        have hok' : (healthLoop health rest).2 = true := by
          simpa [healthLoop, h1, h2] using hok
        obtain ⟨pre, j, hpre⟩ := ih h30' hok'
        exact ⟨Event.healthCheck i false :: pre, j, by simp [healthLoop, h1, h2, hpre]⟩

theorem healthLoop_count_le (health : Nat → Bool) :
    ∀ l, healthCount (healthLoop health l).1 ≤ l.length := by
  intro l
  induction l with
  | nil => simp [healthLoop, healthCount]
  | cons i rest ih =>
    simp only [healthCount] at ih ⊢
    by_cases h1 : health i
    · simp [healthLoop, h1, List.countP_cons, isHealthCheckEvent]
    · by_cases h2 : i = 30
      · subst h2
        simp [healthLoop, h1, List.countP_cons, isHealthCheckEvent]
      · simp only [healthLoop, h1, h2]
        simp only [Bool.false_eq_true, if_false, if_neg, List.countP_cons,
          isHealthCheckEvent, List.length_cons]
        simp
        omega

theorem healthLoop_never (health : Nat → Bool) (hFalse : ∀ i, health i = false) :
    ∀ l, 30 ∉ l →
      (healthLoop health (l ++ [30])).1
          = (l ++ [30]).map (fun i => Event.healthCheck i false) ++ [Event.exitProcess 1]
        ∧ (healthLoop health (l ++ [30])).2 = false := by
  intro l
  induction l with
  | nil => simp [healthLoop, hFalse 30]
  | cons x rest ih =>
    intro h30
    have hx : x ≠ 30 := fun h => h30 (h ▸ List.mem_cons_self x rest)
    have h30' : 30 ∉ rest := fun h => h30 (List.mem_cons_of_mem _ h)
    obtain ⟨ih1, ih2⟩ := ih h30'
    constructor
    · simp [healthLoop, hFalse x, hx, ih1]
    · simp [healthLoop, hFalse x, hx, ih2]

theorem healthLoop_true_of_any (health : Nat → Bool) :
    ∀ l, 30 ∉ l → (∃ i, i ∈ l ++ [30] ∧ health i = true) →
      (healthLoop health (l ++ [30])).2 = true := by
  intro l
  induction l with
  | nil =>
    intro _ hex
    obtain ⟨i, hi, hh⟩ := hex
    simp at hi
    subst hi
    simp [healthLoop, hh]
  | cons x rest ih =>
    intro h30 hex
    have hx : x ≠ 30 := fun h => h30 (h ▸ List.mem_cons_self x rest)
    have h30' : 30 ∉ rest := fun h => h30 (List.mem_cons_of_mem _ h)
    by_cases h1 : health x
    · simp [healthLoop, h1]
    · have hex' : ∃ i, i ∈ rest ++ [30] ∧ health i = true := by
        obtain ⟨i, hi, hh⟩ := hex
        rcases List.mem_cons.mp hi with h | h
        · subst h; exact absurd hh (by simp [h1])
        · exact ⟨i, h, hh⟩
      simp [healthLoop, h1, hx, ih h30' hex']

theorem countHC_map_false (l : List Nat) :
    healthCount (l.map (fun i => Event.healthCheck i false)) = l.length := by
  induction l with
  | nil => simp [healthCount]
  | cons x rest ih =>
    simp only [healthCount] at ih
    simp [healthCount, List.countP_cons, isHealthCheckEvent, ih]

theorem range30_split : List.range' 1 30 = List.range' 1 29 ++ [30] := by decide

theorem not_mem_range29 : 30 ∉ List.range' 1 29 := by decide

/-! ## Claim C3: the gateway starts only after a successful health check -/

/-- C3: in every execution of the startup script, if the gateway transport
is launched, then the launch uses the externally assigned port (`PORT`,
default 3000), its backend base URL is built from the fixed internal port
(`BACKEND_PORT`, default 8420), and the launch is immediately preceded by a
successful health check: the trace decomposes as a prefix followed by
`[healthCheck i true, startGateway ...]`. -/
theorem c3_gateway_after_health (health : Nat → Bool) (pe be : Option Nat) (p : Nat)
    (u : String) (hmem : Event.startGateway p u ∈ cloudStart health pe be) :
    p = pe.getD 3000
      ∧ u = "http://127.0.0.1:" ++ natToStr (be.getD 8420)
      ∧ ∃ pre i, cloudStart health pe be
          = pre ++ [Event.healthCheck i true, Event.startGateway p u] := by
  simp only [cloudStart, List.mem_cons, List.mem_append] at hmem
  rcases hmem with h | h | h
  · exact absurd h (by simp)
  · rcases healthLoop_events_shape health (List.range' 1 30) _ h with ⟨i, b, hib⟩ | hex
    · exact absurd hib (by simp)
    · exact absurd hex (by simp)
  · by_cases hr : (healthLoop health (List.range' 1 30)).2 = true
    · rw [if_pos hr] at h
      simp at h
      obtain ⟨hp, hu⟩ := h
      obtain ⟨pre, i, hsplit⟩ :=
        healthLoop_success_split health (List.range' 1 30) (by decide) hr
      refine ⟨hp, hu, Event.startBackend (be.getD 8420) :: pre, i, ?_⟩
      simp [cloudStart, hsplit, if_pos hr, hp, hu]
    · rw [if_neg hr] at h
      simp at h

/-- C3 witness: with an immediately healthy backend, `PORT=4321` and no
`BACKEND_PORT`, the gateway launch carries port 4321 and backend URL
`http://127.0.0.1:8420`, preceded by the successful check. -/
theorem c3_gateway_after_health_witness :
    Event.startGateway 4321 "http://127.0.0.1:8420"
        ∈ cloudStart (fun _ => true) (some 4321) none
      ∧ (4321 = (some 4321 : Option Nat).getD 3000
          ∧ "http://127.0.0.1:8420"
              = "http://127.0.0.1:" ++ natToStr ((none : Option Nat).getD 8420)
          ∧ ∃ pre i, cloudStart (fun _ => true) (some 4321) none
              = pre ++ [Event.healthCheck i true,
                  Event.startGateway 4321 "http://127.0.0.1:8420"]) :=
  ⟨by decide, c3_gateway_after_health (fun _ => true) (some 4321) none 4321
      "http://127.0.0.1:8420" (by decide)⟩

/-! ## Claim C4: the polling loop is bounded by 30 attempts -/

/-- C4: the startup health poll performs at most 30 health checks; if the
backend is healthy at some attempt in 1..30 the gateway is launched; if the
backend is never healthy the trace contains exactly 30 health checks, the
process exits with status 1 (non-zero), and the gateway is never launched. -/
theorem c4_poll_bound (health : Nat → Bool) (pe be : Option Nat) :
    healthCount (cloudStart health pe be) ≤ 30
      ∧ ((∃ i, i ∈ List.range' 1 30 ∧ health i = true) →
          ∃ p u, Event.startGateway p u ∈ cloudStart health pe be)
      ∧ ((∀ i, health i = false) →
          healthCount (cloudStart health pe be) = 30
            ∧ Event.exitProcess 1 ∈ cloudStart health pe be
            ∧ ∀ p u, Event.startGateway p u ∉ cloudStart health pe be) := by
  have hcount : healthCount (cloudStart health pe be)
      = healthCount (healthLoop health (List.range' 1 30)).1 := by
    by_cases hr : (healthLoop health (List.range' 1 30)).2 = true <;>
      simp [cloudStart, healthCount, hr, List.countP_append, List.countP_cons,
        isHealthCheckEvent]
  refine ⟨?_, ?_, ?_⟩
  · rw [hcount]
    have hle := healthLoop_count_le health (List.range' 1 30)
    simpa using hle
  · intro hex
    have hr : (healthLoop health (List.range' 1 30)).2 = true := by
      rw [range30_split]
      exact healthLoop_true_of_any health _ not_mem_range29 (range30_split ▸ hex)
    refine ⟨pe.getD 3000, "http://127.0.0.1:" ++ natToStr (be.getD 8420), ?_⟩
    simp [cloudStart, if_pos hr]
  · intro hFalse
    have hnever := healthLoop_never health hFalse (List.range' 1 29) not_mem_range29
    rw [← range30_split] at hnever
    obtain ⟨h1, h2⟩ := hnever
    refine ⟨?_, ?_, ?_⟩
    · rw [hcount, h1]
      have := countHC_map_false (List.range' 1 30)
      simp only [healthCount, List.countP_append] at this ⊢
      simp [isHealthCheckEvent, this]
    · simp [cloudStart, h1, h2]
    · intro p u
      simp [cloudStart, h1, h2]

/-- C4 witness: a never-healthy backend yields exactly 30 checks, exit
status 1 and no gateway launch; a backend healthy at attempt 5 yields a
gateway launch. -/
theorem c4_poll_bound_witness :
    (healthCount (cloudStart (fun _ => false) none none) = 30
        ∧ Event.exitProcess 1 ∈ cloudStart (fun _ => false) none none
        ∧ ∀ p u, Event.startGateway p u ∉ cloudStart (fun _ => false) none none)
      ∧ ∃ p u, Event.startGateway p u ∈ cloudStart (fun i => i == 5) (some 4000) none :=
  ⟨(c4_poll_bound (fun _ => false) none none).2.2 (fun _ => rfl),
   (c4_poll_bound (fun i => i == 5) (some 4000) none).2.1 ⟨5, by decide, rfl⟩⟩

/-! ## Claim C7: concrete end-to-end example -/

/-- C7: with the backend response of the spec's end-to-end example
(score 0.93, 1200 tokens saved, 42.7 ms), `architect_consult("design a
login flow")` renders text containing `[0.93] **Security Review** (skill)`,
`1200` and `43ms`. -/
theorem c7_end_to_end_example :
    strCount "[0.93] **Security Review** (skill)"
        (resultText (handleArchitectConsult backendC7 "design a login flow" none).1) ≠ 0
      ∧ strCount "1200"
          (resultText (handleArchitectConsult backendC7 "design a login flow" none).1) ≠ 0
      ∧ strCount "43ms"
          (resultText (handleArchitectConsult backendC7 "design a login flow" none).1) ≠ 0 := by
  refine ⟨?_, ?_, ?_⟩ <;> · set_option maxRecDepth 100000 in decide

/-! ## Claim C10: every handler result is a single text item -/

/-- C10: each of the three handlers, on every backend and every input
(both branches of `skill_injector` included), returns a `content` sequence
of exactly one element whose `type` is `"text"`. -/
theorem c10_single_text_content (b : Backend) (intent code skill_id : String)
    (rf sid : Option String) :
    (handleArchitectConsult b intent sid).1.content.map TextContent.type = ["text"]
      ∧ (handleComplianceVerify b code rf sid).1.content.map TextContent.type = ["text"]
      ∧ (handleSkillInjector b skill_id sid).1.content.map TextContent.type = ["text"] := by
  refine ⟨rfl, rfl, ?_⟩
  by_cases h : skill_id = "list" <;> simp [handleSkillInjector, h]

end AwesomeContext
